import Mathlib

/-!
Verification of the ionic range slider (src/components/range/range.ts) and the
pull-to-refresh engine (packages/core/src/components/refresher/refresher.tsx).

JavaScript numbers are modelled as rationals.  JavaScript Math.round rounds
half toward positive infinity, which is floor (x + 1/2); it is modelled here
as jround.  Fields the component only uses for rendering strings (style
percentages, durations) are kept as rationals or string literals.
-/

namespace Ionic

/-- JavaScript Math.round: floor of x + 1/2 (half rounds toward plus infinity). -/
def jround (q : ℚ) : ℤ := ⌊q + 1 / 2⌋

/-- clamp (min, n, max) from util/util.ts: Math.max(min, Math.min(n, max)). -/
def clampQ (lo x hi : ℚ) : ℚ := max lo (min x hi)

/-- The slider's shared range configuration.  The component rounds min, max and
step to integers on assignment (rejecting NaN and non-positive steps), so they
are modelled as integers. -/
structure RangeDomain where
  min : ℤ
  max : ℤ
  step : ℤ
deriving DecidableEq

/-- Range.ratioToValue, range.ts lines 586-589:
ratio = Math.round(((max - min) * ratio) + min); return Math.round(ratio / step) * step. -/
def ratioToValue (d : RangeDomain) (ratio : ℚ) : ℚ :=
  let r : ℤ := jround (((d.max : ℚ) - (d.min : ℚ)) * ratio + (d.min : ℚ))
  ((jround ((r : ℚ) / (d.step : ℚ)) * d.step : ℤ) : ℚ)

/-- Range.valueToRatio, range.ts lines 594-597:
value = Math.round(clamp(min, value, max) / step) * step;
return (value - min) / (max - min). -/
def valueToRatio (d : RangeDomain) (value : ℚ) : ℚ :=
  let v : ℚ := ((jround (clampQ (d.min : ℚ) value (d.max : ℚ) / (d.step : ℚ)) * d.step : ℤ) : ℚ)
  (v - (d.min : ℚ)) / ((d.max : ℚ) - (d.min : ℚ))

/-- The spec's step-snapping operation: round(x / step) * step. -/
def snapToStep (d : RangeDomain) (x : ℚ) : ℤ := jround (x / (d.step : ℚ)) * d.step

/-- The spec's wording of ratio-to-value: round(((max - min) * ratio) + min),
then snapped to the nearest multiple of step via round(x / step) * step. -/
def specRatioToValue (d : RangeDomain) (ratio : ℚ) : ℚ :=
  ((snapToStep d ((jround (((d.max : ℚ) - (d.min : ℚ)) * ratio + (d.min : ℚ)) : ℚ)) : ℤ) : ℚ)

/-- The spec's wording of value-to-ratio: clamp value to [min, max], snap to the
nearest step multiple, then (value - min) / (max - min). -/
def specValueToRatio (d : RangeDomain) (value : ℚ) : ℚ :=
  (((snapToStep d (clampQ (d.min : ℚ) value (d.max : ℚ)) : ℤ) : ℚ) - (d.min : ℚ)) /
    ((d.max : ℚ) - (d.min : ℚ))

lemma jround_intCast (n : ℤ) : jround (n : ℚ) = n := by
  unfold jround
  rw [Int.floor_int_add]
  norm_num

lemma jround_le_of_le {q : ℚ} {b : ℤ} (h : q ≤ (b : ℚ)) : jround q ≤ b := by
  unfold jround
  have hlt : q + 1 / 2 < ((b + 1 : ℤ) : ℚ) := by
    push_cast
    linarith
  have := Int.floor_lt.mpr hlt
  omega

lemma le_jround_of_le {q : ℚ} {a : ℤ} (h : (a : ℚ) ≤ q) : a ≤ jround q := by
  unfold jround
  exact Int.le_floor.mpr (by linarith)

/-- When n is a multiple of step, snapping n to the step grid returns n. -/
lemma snap_of_dvd (d : RangeDomain) (h1 : 0 < d.step) {n : ℤ} (hdvd : d.step ∣ n) :
    jround ((n : ℚ) / (d.step : ℚ)) * d.step = n := by
  obtain ⟨a, rfl⟩ := hdvd
  have hs : ((d.step : ℚ)) ≠ 0 := by exact_mod_cast h1.ne'
  have : ((d.step * a : ℤ) : ℚ) / (d.step : ℚ) = (a : ℚ) := by
    field_simp
  rw [this, jround_intCast]
  ring

/-- With min and max both multiples of step (and a positive step on a
non-degenerate domain), valueToRatio always lands in [0, 1]. -/
lemma valueToRatio_mem_unit (d : RangeDomain) (h1 : 0 < d.step) (h2 : d.min < d.max)
    (ha : d.step ∣ d.min) (hb : d.step ∣ d.max) (v : ℚ) :
    0 ≤ valueToRatio d v ∧ valueToRatio d v ≤ 1 := by
  obtain ⟨a, hA⟩ := ha
  obtain ⟨b, hB⟩ := hb
  have hs : (0 : ℚ) < (d.step : ℚ) := by exact_mod_cast h1
  have hminmax : (d.min : ℚ) < (d.max : ℚ) := by exact_mod_cast h2
  set c := clampQ (d.min : ℚ) v (d.max : ℚ) with hc
  have h_lo : (d.min : ℚ) ≤ c := le_max_left _ _
  have h_hi : c ≤ (d.max : ℚ) := max_le (le_of_lt hminmax) (min_le_right _ _)
  have hj_lo : a ≤ jround (c / (d.step : ℚ)) := by
    apply le_jround_of_le
    rw [le_div_iff₀ hs]
    have : ((d.min : ℤ) : ℚ) = (a : ℚ) * (d.step : ℚ) := by
      rw [hA]; push_cast; ring
    linarith [h_lo, this.symm.le, this.le]
  have hj_hi : jround (c / (d.step : ℚ)) ≤ b := by
    apply jround_le_of_le
    rw [div_le_iff₀ hs]
    have : ((d.max : ℤ) : ℚ) = (b : ℚ) * (d.step : ℚ) := by
      rw [hB]; push_cast; ring
    linarith [h_hi, this.le]
  have hv_lo : (d.min : ℚ) ≤ ((jround (c / (d.step : ℚ)) * d.step : ℤ) : ℚ) := by
    have : (d.min : ℤ) ≤ jround (c / (d.step : ℚ)) * d.step := by
      rw [hA]
      have := mul_le_mul_of_nonneg_right hj_lo (le_of_lt h1)
      linarith [this]
    exact_mod_cast this
  have hv_hi : ((jround (c / (d.step : ℚ)) * d.step : ℤ) : ℚ) ≤ (d.max : ℚ) := by
    have : jround (c / (d.step : ℚ)) * d.step ≤ (d.max : ℤ) := by
      rw [hB]
      have := mul_le_mul_of_nonneg_right hj_hi (le_of_lt h1)
      linarith [this]
    exact_mod_cast this
  have hden : (0 : ℚ) < (d.max : ℚ) - (d.min : ℚ) := by linarith
  unfold valueToRatio
  rw [← hc]
  constructor
  · exact div_nonneg (by linarith) (le_of_lt hden)
  · rw [div_le_one hden]
    linarith

lemma clampQ_unit_mem (x : ℚ) : 0 ≤ clampQ 0 x 1 ∧ clampQ 0 x 1 ≤ 1 :=
  ⟨le_max_left _ _, max_le zero_le_one (min_le_right _ _)⟩

/-- One draggable knob handle (class RangeKnob in range.ts).  The field x is
the rendered left-position percentage set by position(). -/
structure Knob where
  ratio : ℚ
  val : ℚ
  x : ℚ
  pressed : Bool
deriving DecidableEq

/-- RangeKnob ratio setter, range.ts lines 46-53: clamp to [0,1], derive the
value, and if the range snaps re-derive the ratio from that value. -/
def knobSetRatio (d : RangeDomain) (snaps : Bool) (k : Knob) (ratio : ℚ) : Knob :=
  let r := clampQ 0 ratio 1
  let v := ratioToValue d r
  { k with ratio := if snaps then valueToRatio d v else r, val := v }

/-- RangeKnob value setter, range.ts lines 58-66 (all modelled inputs are
numbers, so the isNumber/isNaN guard always passes). -/
def knobSetValue (d : RangeDomain) (k : Knob) (v : ℚ) : Knob :=
  let r := valueToRatio d v
  { k with ratio := r, val := ratioToValue d r }

/-- RangeKnob.position, range.ts lines 68-70: x becomes ratio * 100 percent. -/
def positionKnob (k : Knob) : Knob := { k with x := k.ratio * 100 }

def knob0 : Knob := { ratio := 0, val := 0, x := 0, pressed := false }

/-- C1: for every domain with a positive integer step, ratioToValue is
round(((max - min) * ratio) + min) snapped to the nearest step multiple via
round(x / step) * step, and valueToRatio clamps to [min, max], snaps to the
nearest step multiple, and divides; the two-stage rounding is preserved
exactly as the spec words it. -/
theorem range_value_mapping_matches_spec (d : RangeDomain) (ratio value : ℚ)
    (_hstep : 0 < d.step) :
    ratioToValue d ratio = specRatioToValue d ratio ∧
    valueToRatio d value = specValueToRatio d value :=
  ⟨rfl, rfl⟩

theorem range_value_mapping_matches_spec_witness :
    ratioToValue ⟨0, 100, 1⟩ (1 / 2) = specRatioToValue ⟨0, 100, 1⟩ (1 / 2) ∧
    valueToRatio ⟨0, 100, 1⟩ 50 = specValueToRatio ⟨0, 100, 1⟩ 50 :=
  range_value_mapping_matches_spec ⟨0, 100, 1⟩ (1 / 2) 50 (by norm_num)

/-- C3 counterexample: the domain min 1, max 10, step 2 is valid in the
claim's sense (integers, min < max, positive step), yet ratioToValue 0 is 2,
not min = 1: Math.round(1 / 2) * 2 = 2. -/
theorem ratioToValue_endpoints_cex :
    (0 : ℤ) < 2 ∧ (1 : ℤ) < 10 ∧ ratioToValue ⟨1, 10, 2⟩ 0 ≠ 1 := by
  refine ⟨by norm_num, by norm_num, ?_⟩
  norm_num [ratioToValue, jround]

/-- C3 (amended): if min and max are in addition both integer multiples of
step, then ratioToValue 0 = min and ratioToValue 1 = max. -/
theorem ratioToValue_endpoints (d : RangeDomain) (h1 : 0 < d.step) (_h2 : d.min < d.max)
    (ha : d.step ∣ d.min) (hb : d.step ∣ d.max) :
    ratioToValue d 0 = (d.min : ℚ) ∧ ratioToValue d 1 = (d.max : ℚ) := by
  constructor
  · have e1 : ((d.max : ℚ) - (d.min : ℚ)) * 0 + (d.min : ℚ) = ((d.min : ℤ) : ℚ) := by
      ring
    unfold ratioToValue
    rw [e1, jround_intCast]
    show ((jround ((d.min : ℚ) / (d.step : ℚ)) * d.step : ℤ) : ℚ) = (d.min : ℚ)
    rw [snap_of_dvd d h1 ha]
  · have e1 : ((d.max : ℚ) - (d.min : ℚ)) * 1 + (d.min : ℚ) = ((d.max : ℤ) : ℚ) := by
      ring
    unfold ratioToValue
    rw [e1, jround_intCast]
    show ((jround ((d.max : ℚ) / (d.step : ℚ)) * d.step : ℤ) : ℚ) = (d.max : ℚ)
    rw [snap_of_dvd d h1 hb]

theorem ratioToValue_endpoints_witness :
    ratioToValue ⟨21, 72, 3⟩ 0 = ((21 : ℤ) : ℚ) ∧ ratioToValue ⟨21, 72, 3⟩ 1 = ((72 : ℤ) : ℚ) :=
  ratioToValue_endpoints ⟨21, 72, 3⟩ (by norm_num) (by norm_num)
    (by norm_num) (by norm_num)

/-- C2 counterexample: with the valid domain min 0, max 10, step 4 and snaps
enabled, assigning ratio 1 stores ratio 6/5, outside [0, 1]: the value snaps
to 12 (above max) and the re-derived ratio is 12 / 10. -/
theorem knob_ratio_escapes_unit_interval_cex :
    (0 : ℤ) < 4 ∧ (0 : ℤ) < 10 ∧
    (knobSetRatio ⟨0, 10, 4⟩ true knob0 1).ratio = 6 / 5 ∧
    ¬ ((knobSetRatio ⟨0, 10, 4⟩ true knob0 1).ratio ≤ 1) := by
  refine ⟨by norm_num, by norm_num, ?_, ?_⟩ <;>
    norm_num [knobSetRatio, ratioToValue, valueToRatio, clampQ, jround]

/-- C2 (amended): after a ratio assignment the stored knob ratio lies in
[0, 1] whenever snapping is disabled; with snapping enabled it lies in [0, 1]
provided min and max are integer multiples of step. -/
theorem knob_ratio_in_unit_interval (d : RangeDomain) (snaps : Bool) (k : Knob) (ratio : ℚ)
    (h1 : 0 < d.step) (h2 : d.min < d.max)
    (h3 : snaps = false ∨ (d.step ∣ d.min ∧ d.step ∣ d.max)) :
    0 ≤ (knobSetRatio d snaps k ratio).ratio ∧ (knobSetRatio d snaps k ratio).ratio ≤ 1 := by
  cases snaps with
  | false =>
    simpa [knobSetRatio] using clampQ_unit_mem ratio
  | true =>
    rcases h3 with h3 | ⟨ha, hb⟩
    · exact absurd h3 (by simp)
    · simpa [knobSetRatio] using
        valueToRatio_mem_unit d h1 h2 ha hb (ratioToValue d (clampQ 0 ratio 1))

theorem knob_ratio_in_unit_interval_witness :
    0 ≤ (knobSetRatio ⟨0, 100, 1⟩ true knob0 (1 / 2)).ratio ∧
    (knobSetRatio ⟨0, 100, 1⟩ true knob0 (1 / 2)).ratio ≤ 1 :=
  knob_ratio_in_unit_interval ⟨0, 100, 1⟩ true knob0 (1 / 2) (by norm_num) (by norm_num)
    (Or.inr ⟨⟨0, by norm_num⟩, ⟨100, by norm_num⟩⟩)

/-- The component's exposed value: undefined before the first write, a plain
number for a single knob, or a lower/upper pair for dual knobs. -/
inductive RVal where
  | undef : RVal
  | single (v : ℚ) : RVal
  | pair (lower upper : ℚ) : RVal
deriving DecidableEq

/-- One snap tick: its ratio, its rendered left percentage, and whether it
lies inside the selected range. -/
structure Tick where
  ratio : ℚ
  left : ℚ
  active : Bool
deriving DecidableEq

/-- The Range component state driving the pointer-tracking and bar logic.
barL models the active bar's left style: none stands for the empty string
(style unset, so the bar keeps its default left edge of 0), some p for the
percentage p.  changeCallbacks counts onChange invocations and changeEvents
counts ionChange emissions. -/
structure Range where
  dom : RangeDomain
  snaps : Bool
  dual : Bool
  first : Knob
  last : Knob
  value : RVal
  barL : Option ℚ
  barR : ℚ
  ticks : List Tick
  changeCallbacks : ℕ
  changeEvents : ℕ
deriving DecidableEq

/-- Range.updateTicks, range.ts lines 565-581: with snapping, a tick is
active iff it lies below the current ratio (single knob) or between the lower
and upper ratios (dual knobs). -/
def updateTicks (c : Range) : Range :=
  if c.snaps then
    if c.dual then
      let lo := min c.first.ratio c.last.ratio
      let hi := max c.first.ratio c.last.ratio
      { c with ticks := c.ticks.map fun t =>
          { t with active := decide (lo ≤ t.ratio ∧ t.ratio ≤ hi) } }
    else
      let lo := c.first.ratio
      { c with ticks := c.ticks.map fun t => { t with active := decide (t.ratio ≤ lo) } }
  else c

/-- Range.updateBar, range.ts lines 526-540. -/
def updateBar (c : Range) : Range :=
  if c.dual then
    updateTicks { c with
      barL := some (min c.first.ratio c.last.ratio * 100),
      barR := 100 - max c.first.ratio c.last.ratio * 100 }
  else
    updateTicks { c with barL := none, barR := 100 - c.first.ratio * 100 }

/-- Range.setActiveKnob, range.ts lines 479-489, reduced to the knob choice:
true means the last (upper) knob becomes the active one. -/
def activeIsLast (dual : Bool) (ratio f l : ℚ) : Bool :=
  dual && decide (|ratio - f| > |ratio - l|)

/-- Range.updateKnob, range.ts lines 494-521, for an already selected active
knob (the code guards on this._active, which pointer handlers always set):
re-derive the active knob's ratio from the pointer position; if the value
changed, update the exposed value, invoke the change callback and emit the
Change event; finally recompute the bar. -/
def updateKnob (c : Range) (aLast : Bool) (x left width : ℚ) : Range :=
  let active := if aLast then c.last else c.first
  let oldVal := active.val
  let active1 := knobSetRatio c.dom c.snaps active ((x - left) / width)
  let c1 := if aLast then { c with last := active1 } else { c with first := active1 }
  let newVal := active1.val
  let c2 :=
    if oldVal ≠ newVal then
      { c1 with
        value :=
          if c1.dual then
            RVal.pair (min c1.first.val c1.last.val) (max c1.first.val c1.last.val)
          else RVal.single newVal,
        changeCallbacks := c1.changeCallbacks + 1,
        changeEvents := c1.changeEvents + 1 }
    else c1
  updateBar c2

/-- The knob-selection plus first-sample update of Range.pointerDown,
range.ts lines 387-391: pick the active knob from the pointer ratio, then
update that knob.  The second component reports which knob became active. -/
def pointerDownCore (c : Range) (x left width : ℚ) : Range × Bool :=
  let ratio := (x - left) / width
  let aLast := activeIsLast c.dual ratio c.first.ratio c.last.ratio
  (updateKnob c aLast x left width, aLast)

/-- A knob value assignment whose right-hand side may not be a number: the
setter's isNumber guard (range.ts lines 58-65) ignores non-numbers. -/
def knobWriteValue (d : RangeDomain) (k : Knob) : Option ℚ → Knob
  | some v => knobSetValue d k v
  | none => k

/-- val.lower as read by writeValue: only a pair has a numeric lower field. -/
def lowerOf : RVal → Option ℚ
  | RVal.pair lo _ => some lo
  | _ => none

/-- val.upper as read by writeValue. -/
def upperOf : RVal → Option ℚ
  | RVal.pair _ hi => some hi
  | _ => none

/-- The injected value itself when it is a plain number. -/
def singleOf : RVal → Option ℚ
  | RVal.single v => some v
  | _ => none

/-- Range.writeValue, range.ts lines 602-620: store the injected value, set
each knob's value (dual: lower/upper to the respective knobs), reposition,
and recompute the bar.  No change callback and no Change event is emitted. -/
def writeValue (c : Range) (v : RVal) : Range :=
  if v = RVal.undef then c
  else
    let c0 := { c with value := v }
    if c0.dual then
      let c1 := { c0 with first := knobWriteValue c0.dom c0.first (lowerOf v) }
      let c2 := { c1 with last := positionKnob (knobWriteValue c1.dom c1.last (upperOf v)) }
      let c3 := { c2 with first := positionKnob c2.first }
      updateBar c3
    else
      let c1 := { c0 with first := knobWriteValue c0.dom c0.first (singleOf v) }
      let c2 := { c1 with first := positionKnob c1.first }
      updateBar c2

/-- The dual-knob scenario of C7: domain 0..100 step 1, first knob at ratio
1/10 (value 10), last knob at ratio 9/10 (value 90). -/
def rangeC7 : Range :=
  { dom := ⟨0, 100, 1⟩, snaps := false, dual := true,
    first := { ratio := 1 / 10, val := 10, x := 10, pressed := false },
    last := { ratio := 9 / 10, val := 90, x := 90, pressed := false },
    value := RVal.pair 10 90, barL := some 10, barR := 10, ticks := [],
    changeCallbacks := 0, changeEvents := 0 }

/-- A single-knob component over the default domain. -/
def rangeS : Range :=
  { dom := ⟨0, 100, 1⟩, snaps := false, dual := false,
    first := knob0, last := { knob0 with ratio := 1, val := 100 },
    value := RVal.undef, barL := none, barR := 100, ticks := [],
    changeCallbacks := 0, changeEvents := 0 }

/-- C7: on pointer-down in dual-knob mode the active knob is the numerically
closest one, the first (lower) knob winning an exact tie; concretely, with
the first knob at ratio 1/10 and the last at 9/10, a pointer at ratio 3/10
selects and moves the first knob and leaves the last knob unchanged. -/
theorem active_knob_selection_closest :
    (∀ r f l : ℚ,
      (activeIsLast true r f l = false ↔ |r - f| ≤ |r - l|) ∧
      (activeIsLast true r f l = true ↔ |r - l| < |r - f|)) ∧
    ((pointerDownCore rangeC7 30 0 100).2 = false ∧
      (pointerDownCore rangeC7 30 0 100).1.last = rangeC7.last ∧
      (pointerDownCore rangeC7 30 0 100).1.first.ratio = 3 / 10 ∧
      (pointerDownCore rangeC7 30 0 100).1.first.val = 30 ∧
      (pointerDownCore rangeC7 30 0 100).1.value = RVal.pair 30 90) := by
  constructor
  · intro r f l
    constructor
    · simp [activeIsLast, not_lt]
    · simp [activeIsLast]
  · refine ⟨?_, ?_, ?_, ?_, ?_⟩ <;>
      norm_num [pointerDownCore, activeIsLast, updateKnob, knobSetRatio, ratioToValue,
        clampQ, jround, updateBar, updateTicks, rangeC7, abs]

theorem active_knob_selection_closest_witness :
    (pointerDownCore rangeC7 30 0 100).2 = false :=
  (active_knob_selection_closest).2.1

/-- C8: after every bar recomputation the bar's effective left edge is 0 in
single-knob mode (the left style is left unset) and 100 times the smaller of
the two ratios in dual mode, and the right edge is 100 - ratio * 100,
respectively 100 - 100 times the larger ratio, whichever physical knob holds
the lower ratio. -/
theorem bar_extents_formula (c : Range) :
    ((updateBar c).barL.getD 0 =
      if c.dual then 100 * min c.first.ratio c.last.ratio else 0) ∧
    ((updateBar c).barL =
      if c.dual then some (min c.first.ratio c.last.ratio * 100) else none) ∧
    ((updateBar c).barR =
      if c.dual then 100 - 100 * max c.first.ratio c.last.ratio
      else 100 - c.first.ratio * 100) := by
  cases hd : c.dual <;> cases hs : c.snaps <;>
    simp [updateBar, updateTicks, hd, hs, mul_comm]

theorem bar_extents_formula_witness :
    (updateBar rangeC7).barR =
      if rangeC7.dual then 100 - 100 * max rangeC7.first.ratio rangeC7.last.ratio
      else 100 - rangeC7.first.ratio * 100 :=
  (bar_extents_formula rangeC7).2.2

/-- C9: writeValue stores the injected value into the knobs (lower/upper to
the respective knobs in dual mode), repositions the knobs, and recomputes the
bar, and it never invokes the registered change callback and never emits a
Change event. -/
theorem writeValue_updates_without_change_emission (c : Range) (v : RVal) :
    ((writeValue c v).changeCallbacks = c.changeCallbacks ∧
     (writeValue c v).changeEvents = c.changeEvents) ∧
    (∀ lo hi : ℚ, c.dual = true → v = RVal.pair lo hi →
      (writeValue c v).first.val = (knobSetValue c.dom c.first lo).val ∧
      (writeValue c v).last.val = (knobSetValue c.dom c.last hi).val ∧
      (writeValue c v).first.x = (writeValue c v).first.ratio * 100 ∧
      (writeValue c v).last.x = (writeValue c v).last.ratio * 100 ∧
      (writeValue c v).barL =
        some (min ((writeValue c v).first.ratio) ((writeValue c v).last.ratio) * 100) ∧
      (writeValue c v).barR =
        100 - max ((writeValue c v).first.ratio) ((writeValue c v).last.ratio) * 100) ∧
    (∀ q : ℚ, c.dual = false → v = RVal.single q →
      (writeValue c v).first.val = (knobSetValue c.dom c.first q).val ∧
      (writeValue c v).first.x = (writeValue c v).first.ratio * 100 ∧
      (writeValue c v).barL = none ∧
      (writeValue c v).barR = 100 - (writeValue c v).first.ratio * 100) := by
  refine ⟨?_, ?_, ?_⟩
  · rcases v with _ | q | ⟨lo, hi⟩ <;> cases hd : c.dual <;> cases hs : c.snaps <;>
      simp [writeValue, updateBar, updateTicks, positionKnob, knobWriteValue,
        lowerOf, upperOf, singleOf, hd, hs]
  · intro lo hi hd hv
    subst hv
    cases hs : c.snaps <;>
      simp [writeValue, updateBar, updateTicks, positionKnob, knobWriteValue,
        lowerOf, upperOf, singleOf, hd, hs]
  · intro q hd hv
    subst hv
    cases hs : c.snaps <;>
      simp [writeValue, updateBar, updateTicks, positionKnob, knobWriteValue,
        lowerOf, upperOf, singleOf, hd, hs]

theorem writeValue_updates_without_change_emission_witness :
    (writeValue rangeC7 (RVal.pair 30 70)).changeEvents = rangeC7.changeEvents ∧
    (writeValue rangeC7 (RVal.pair 30 70)).first.val =
      (knobSetValue rangeC7.dom rangeC7.first 30).val ∧
    (writeValue rangeS (RVal.single 40)).barL = none :=
  ⟨(writeValue_updates_without_change_emission rangeC7 (RVal.pair 30 70)).1.2,
   ((writeValue_updates_without_change_emission rangeC7 (RVal.pair 30 70)).2.1 30 70
      rfl rfl).1,
   ((writeValue_updates_without_change_emission rangeS (RVal.single 40)).2.2 40
      rfl rfl).2.2.1⟩

/-- The refresher's states, refresher.tsx lines 11-20.  The source encodes
them as one-hot bit flags and tests the busy group with a mask; since the
flags are one-hot this is the membership predicate isBusy below. -/
inductive RState where
  | Inactive : RState
  | Pulling : RState
  | Ready : RState
  | Refreshing : RState
  | Cancelling : RState
  | Completing : RState
deriving DecidableEq

/-- state & _BUSY_ with _BUSY_ = Refreshing | Cancelling | Completing. -/
def isBusy : RState → Bool
  | RState.Refreshing => true
  | RState.Cancelling => true
  | RState.Completing => true
  | _ => false

/-- The refresher's semantic output events. -/
inductive REvent where
  | start : REvent
  | pull : REvent
  | refresh : REvent
deriving DecidableEq

/-- The style instruction written by setCss: the translateY offset (0 when no
positive offset is applied), the transition duration and delay strings, and
the overflow style (the string hidden, or empty for visible). -/
structure RStyle where
  transformY : ℚ
  duration : String
  delay : String
  overflow : String
deriving DecidableEq

/-- The refresher engine state.  pendingTimers counts armed, uncleared
fallback timers; transitionListeners counts registered transition-end
handlers (the registration at refresher.tsx line 390 is commented out, so the
code never increments it).  events is the emission log and stateTrace records
every assignment to state, in order. -/
structure Refresher where
  state : RState
  progress : ℚ
  didStart : Bool
  appliedStyles : Bool
  style : RStyle
  pullMin : ℚ
  pullDelta : ℚ
  snapbackDuration : String
  pendingTimers : ℕ
  transitionListeners : ℕ
  events : List REvent
  stateTrace : List RState
deriving DecidableEq

/-- Assignment to this.state, with the assignment recorded in the trace. -/
def setRState (m : Refresher) (s : RState) : Refresher :=
  { m with state := s, stateTrace := m.stateTrace ++ [s] }

def setProgress (m : Refresher) (p : ℚ) : Refresher := { m with progress := p }

def emitEvent (m : Refresher) (e : REvent) : Refresher := { m with events := m.events ++ [e] }

/-- Refresher.setCss, refresher.tsx lines 403-412: appliedStyles records
whether a positive offset is applied; the style receives the transform, the
duration, the delay, and overflow hidden when the third argument is true. -/
def setCss (m : Refresher) (y : ℚ) (duration : String) (overflowVisible : Bool)
    (delay : String) : Refresher :=
  { m with
    appliedStyles := decide (0 < y),
    style :=
      { transformY := if 0 < y then y else 0,
        duration := duration, delay := delay,
        overflow := if overflowVisible then "hidden" else "" } }

/-- Refresher.beginRefresh, refresher.tsx lines 337-348: enter Refreshing,
park the content at the pullMin offset with the snapback duration, and emit
the Refresh event. -/
def beginRefresh (m : Refresher) : Refresher :=
  let m1 := setRState m RState.Refreshing
  let m2 := setCss m1 m1.pullMin m1.snapbackDuration true ""
  emitEvent m2 REvent.refresh

/-- Refresher.onMove, refresher.tsx lines 224-320, over a normalized sample
(touchCount, deltaY) and the host's current scrollTop.  The returned number
is the handler's internal diagnostic code.  The source checks the scrollTop
inside the state-is-Inactive block before switching to Pulling; that block
is flattened here into one guard returning 7 followed by the transition.
Reads of this-fields no earlier statement of the handler assigns
(appliedStyles, pullMin, pullDelta, didStart) are taken from the entry
state m, which is exactly what the source's reads observe at those points. -/
def onMove (m : Refresher) (touchCount : ℕ) (deltaY scrollTop : ℚ) : Refresher × ℕ :=
  if 1 < touchCount then (m, 1)
  else if isBusy m.state then (m, 2)
  else if deltaY ≤ 0 then
    let m1 := setRState (setProgress m 0) RState.Inactive
    if m.appliedStyles then (setCss m1 0 "" false "", 5)
    else (m1, 6)
  else if m.state = RState.Inactive ∧ 0 < scrollTop then (setProgress m 0, 7)
  else
    let m2 := if m.state = RState.Inactive then setRState m RState.Pulling else m
    let m3 := setCss m2 deltaY "0ms" true ""
    if deltaY = 0 then (setProgress m3 0, 8)
    else
      let m4 := setProgress m3 (deltaY / m.pullMin)
      let m5 := if m.didStart then m4 else emitEvent { m4 with didStart := true } REvent.start
      let m6 := emitEvent m5 REvent.pull
      if deltaY < m.pullMin then (setRState m6 RState.Pulling, 2)
      else if m.pullMin + m.pullDelta < deltaY then (beginRefresh m6, 3)
      else (setRState m6 RState.Ready, 4)

/-- The terminal reset performed by the inner close handler, refresher.tsx
lines 373-383: when invoked with a transition event it first clears the
fallback timer; then state becomes Inactive, progress 0, didStart false, and
the fully neutral style is applied (zero offset, 0ms duration, overflow
visible). -/
def closeReset (m : Refresher) (hadEvent : Bool) : Refresher :=
  let m0 := if hadEvent then { m with pendingTimers := m.pendingTimers - 1 } else m
  let m1 := setProgress (setRState m0 RState.Inactive) 0
  let m2 := { m1 with didStart := false }
  setCss m2 0 "0ms" false ""

/-- Refresher.close, refresher.tsx lines 370-401: arm the 600ms fallback
timer, enter the target busy state, and start the zero-offset transition with
the given delay.  The registration of the inner close handler as a
transition-end listener (line 390) is commented out in the source, so
transitionListeners is left unchanged. -/
def closeRefresher (m : Refresher) (target : RState) (delay : String) : Refresher :=
  let m1 := { m with pendingTimers := m.pendingTimers + 1 }
  let m2 := setRState m1 target
  setCss m2 0 "" true delay

/-- Refresher.complete, refresher.tsx lines 359-361. -/
def complete (m : Refresher) : Refresher := closeRefresher m RState.Completing "120ms"

/-- Refresher.cancel, refresher.tsx lines 366-368. -/
def cancelRefresh (m : Refresher) : Refresher := closeRefresher m RState.Cancelling ""

/-- Refresher.onEnd, refresher.tsx lines 322-335. -/
def onEnd (m : Refresher) : Refresher :=
  if m.state = RState.Ready then beginRefresh m
  else if m.state = RState.Pulling then cancelRefresh m
  else m

/-- The armed fallback timer firing: the timer is no longer pending and the
inner close handler runs with no transition event. -/
def fireTimer (m : Refresher) : Refresher :=
  if m.pendingTimers = 0 then m
  else closeReset { m with pendingTimers := m.pendingTimers - 1 } false

/-- The environment dispatching a transition-end event on the scroll element:
a registered handler would consume its registration and run the inner close
with the event; with no registered handler nothing happens. -/
def deliverTransitionEnd (m : Refresher) : Refresher :=
  if m.transitionListeners = 0 then m
  else closeReset { m with transitionListeners := m.transitionListeners - 1 } true

@[simp] lemma setRState_state (m : Refresher) (s : RState) : (setRState m s).state = s := rfl

@[simp] lemma setRState_progress (m : Refresher) (s : RState) :
    (setRState m s).progress = m.progress := rfl

@[simp] lemma setRState_didStart (m : Refresher) (s : RState) :
    (setRState m s).didStart = m.didStart := rfl

@[simp] lemma setRState_appliedStyles (m : Refresher) (s : RState) :
    (setRState m s).appliedStyles = m.appliedStyles := rfl

@[simp] lemma setRState_pullMin (m : Refresher) (s : RState) :
    (setRState m s).pullMin = m.pullMin := rfl

@[simp] lemma setRState_pullDelta (m : Refresher) (s : RState) :
    (setRState m s).pullDelta = m.pullDelta := rfl

@[simp] lemma setRState_events (m : Refresher) (s : RState) :
    (setRState m s).events = m.events := rfl

@[simp] lemma setRState_stateTrace (m : Refresher) (s : RState) :
    (setRState m s).stateTrace = m.stateTrace ++ [s] := rfl

@[simp] lemma setProgress_state (m : Refresher) (p : ℚ) : (setProgress m p).state = m.state := rfl

@[simp] lemma setProgress_progress (m : Refresher) (p : ℚ) : (setProgress m p).progress = p := rfl

@[simp] lemma setProgress_didStart (m : Refresher) (p : ℚ) :
    (setProgress m p).didStart = m.didStart := rfl

@[simp] lemma setProgress_appliedStyles (m : Refresher) (p : ℚ) :
    (setProgress m p).appliedStyles = m.appliedStyles := rfl

@[simp] lemma setProgress_pullMin (m : Refresher) (p : ℚ) :
    (setProgress m p).pullMin = m.pullMin := rfl

@[simp] lemma setProgress_pullDelta (m : Refresher) (p : ℚ) :
    (setProgress m p).pullDelta = m.pullDelta := rfl

@[simp] lemma setProgress_events (m : Refresher) (p : ℚ) :
    (setProgress m p).events = m.events := rfl

@[simp] lemma setProgress_stateTrace (m : Refresher) (p : ℚ) :
    (setProgress m p).stateTrace = m.stateTrace := rfl

@[simp] lemma emitEvent_state (m : Refresher) (e : REvent) : (emitEvent m e).state = m.state := rfl

@[simp] lemma emitEvent_progress (m : Refresher) (e : REvent) :
    (emitEvent m e).progress = m.progress := rfl

@[simp] lemma emitEvent_didStart (m : Refresher) (e : REvent) :
    (emitEvent m e).didStart = m.didStart := rfl

@[simp] lemma emitEvent_appliedStyles (m : Refresher) (e : REvent) :
    (emitEvent m e).appliedStyles = m.appliedStyles := rfl

@[simp] lemma emitEvent_pullMin (m : Refresher) (e : REvent) :
    (emitEvent m e).pullMin = m.pullMin := rfl

@[simp] lemma emitEvent_pullDelta (m : Refresher) (e : REvent) :
    (emitEvent m e).pullDelta = m.pullDelta := rfl

@[simp] lemma emitEvent_events (m : Refresher) (e : REvent) :
    (emitEvent m e).events = m.events ++ [e] := rfl

@[simp] lemma emitEvent_stateTrace (m : Refresher) (e : REvent) :
    (emitEvent m e).stateTrace = m.stateTrace := rfl

@[simp] lemma setCss_state (m : Refresher) (y : ℚ) (d : String) (o : Bool) (dl : String) :
    (setCss m y d o dl).state = m.state := rfl

@[simp] lemma setCss_progress (m : Refresher) (y : ℚ) (d : String) (o : Bool) (dl : String) :
    (setCss m y d o dl).progress = m.progress := rfl

@[simp] lemma setCss_didStart (m : Refresher) (y : ℚ) (d : String) (o : Bool) (dl : String) :
    (setCss m y d o dl).didStart = m.didStart := rfl

@[simp] lemma setCss_pullMin (m : Refresher) (y : ℚ) (d : String) (o : Bool) (dl : String) :
    (setCss m y d o dl).pullMin = m.pullMin := rfl

@[simp] lemma setCss_pullDelta (m : Refresher) (y : ℚ) (d : String) (o : Bool) (dl : String) :
    (setCss m y d o dl).pullDelta = m.pullDelta := rfl

@[simp] lemma setCss_events (m : Refresher) (y : ℚ) (d : String) (o : Bool) (dl : String) :
    (setCss m y d o dl).events = m.events := rfl

@[simp] lemma setCss_stateTrace (m : Refresher) (y : ℚ) (d : String) (o : Bool) (dl : String) :
    (setCss m y d o dl).stateTrace = m.stateTrace := rfl

@[simp] lemma beginRefresh_state (m : Refresher) :
    (beginRefresh m).state = RState.Refreshing := rfl

@[simp] lemma beginRefresh_progress (m : Refresher) :
    (beginRefresh m).progress = m.progress := rfl

@[simp] lemma beginRefresh_didStart (m : Refresher) :
    (beginRefresh m).didStart = m.didStart := rfl

@[simp] lemma beginRefresh_pullMin (m : Refresher) :
    (beginRefresh m).pullMin = m.pullMin := rfl

@[simp] lemma beginRefresh_pullDelta (m : Refresher) :
    (beginRefresh m).pullDelta = m.pullDelta := rfl

@[simp] lemma beginRefresh_events (m : Refresher) :
    (beginRefresh m).events = m.events ++ [REvent.refresh] := rfl

@[simp] lemma beginRefresh_stateTrace (m : Refresher) :
    (beginRefresh m).stateTrace = m.stateTrace ++ [RState.Refreshing] := rfl

/-- The component's initial state with the default configuration
(pullMin 60, pullDelta 60, snapbackDuration 280ms). -/
def refresherInit : Refresher :=
  { state := RState.Inactive, progress := 0, didStart := false, appliedStyles := false,
    style := { transformY := 0, duration := "", delay := "", overflow := "" },
    pullMin := 60, pullDelta := 60, snapbackDuration := "280ms",
    pendingTimers := 0, transitionListeners := 0, events := [], stateTrace := [] }

/-- C5: complete() twice in immediate succession is a total pure computation
in this model (so nothing can be thrown), and once the close sequence's
fallback timers fire the engine rests in Inactive with progress 0 and the
start flag cleared; the terminal reset is idempotent: the first timer alone
already leaves the engine Inactive, and the second firing keeps it there. -/
theorem complete_twice_idempotent (m : Refresher) :
    (fireTimer (complete (complete m))).state = RState.Inactive ∧
    (fireTimer (complete (complete m))).progress = 0 ∧
    (fireTimer (complete (complete m))).didStart = false ∧
    (fireTimer (fireTimer (complete (complete m)))).state = RState.Inactive ∧
    (fireTimer (fireTimer (complete (complete m)))).progress = 0 ∧
    (fireTimer (fireTimer (complete (complete m)))).didStart = false ∧
    (fireTimer (fireTimer (complete (complete m)))).pendingTimers = m.pendingTimers := by
  simp [complete, closeRefresher, fireTimer, closeReset, setRState, setProgress, setCss]

/-- C4, the code evaluated at the failing input: after complete() from the
Refreshing state, a transition-end signal delivered before the 600ms fallback
timer is ignored: the engine state is unchanged (still Completing), the timer
stays armed and no reset happens, because the source never registers the
inner close handler as a transition-end listener (the registration at
refresher.tsx line 390 is commented out). -/
theorem transition_signal_ignored_in_close :
    deliverTransitionEnd (complete { refresherInit with state := RState.Refreshing }) =
      complete { refresherInit with state := RState.Refreshing } ∧
    (complete { refresherInit with state := RState.Refreshing }).state = RState.Completing ∧
    (complete { refresherInit with state := RState.Refreshing }).pendingTimers = 1 := by
  refine ⟨?_, rfl, rfl⟩
  simp [deliverTransitionEnd, complete, closeRefresher, setRState, setCss, refresherInit]

/-- C6: a move sample whose deltaY exceeds pullMin + pullDelta while the
engine is not busy takes the overshoot branch (code 3): the engine
transitions directly to Refreshing, exactly one Refresh event is emitted,
and the Ready state is never assigned during the call. -/
theorem overshoot_move_begins_refresh (m : Refresher) (touchCount : ℕ)
    (deltaY scrollTop : ℚ) (ht : touchCount ≤ 1) (hb : isBusy m.state = false)
    (hmin : 0 ≤ m.pullMin) (hdelta : 0 ≤ m.pullDelta)
    (hover : m.pullMin + m.pullDelta < deltaY) (hscroll : scrollTop ≤ 0) :
    (onMove m touchCount deltaY scrollTop).2 = 3 ∧
    (onMove m touchCount deltaY scrollTop).1.state = RState.Refreshing ∧
    (onMove m touchCount deltaY scrollTop).1.events.count REvent.refresh =
      m.events.count REvent.refresh + 1 ∧
    (onMove m touchCount deltaY scrollTop).1.stateTrace.count RState.Ready =
      m.stateTrace.count RState.Ready := by
  have hdpos : (0 : ℚ) < deltaY := by linarith
  simp only [onMove]
  split_ifs
  all_goals
    try simp only [setRState_state, setRState_progress, setRState_didStart,
      setRState_appliedStyles, setRState_pullMin, setRState_pullDelta, setRState_events,
      setRState_stateTrace, setProgress_state, setProgress_progress, setProgress_didStart,
      setProgress_appliedStyles, setProgress_pullMin, setProgress_pullDelta,
      setProgress_events, setProgress_stateTrace, emitEvent_state, emitEvent_progress,
      emitEvent_didStart, emitEvent_appliedStyles, emitEvent_pullMin, emitEvent_pullDelta,
      emitEvent_events, emitEvent_stateTrace, setCss_state, setCss_progress, setCss_didStart,
      setCss_pullMin, setCss_pullDelta, setCss_events, setCss_stateTrace, beginRefresh_state,
      beginRefresh_progress, beginRefresh_didStart, beginRefresh_pullMin,
      beginRefresh_pullDelta, beginRefresh_events, beginRefresh_stateTrace] at *
  all_goals
    first
    | (exfalso; omega)
    | (exfalso; linarith)
    | (exfalso; simp_all; done)
    | (refine ⟨by trivial, by trivial, ?_, ?_⟩ <;>
        simp [List.count_append, List.count_cons, List.count_nil])

theorem overshoot_move_begins_refresh_witness :
    (onMove refresherInit 0 200 0).2 = 3 ∧
    (onMove refresherInit 0 200 0).1.state = RState.Refreshing ∧
    (onMove refresherInit 0 200 0).1.events.count REvent.refresh =
      refresherInit.events.count REvent.refresh + 1 ∧
    (onMove refresherInit 0 200 0).1.stateTrace.count RState.Ready =
      refresherInit.stateTrace.count RState.Ready :=
  overshoot_move_begins_refresh refresherInit 0 200 0 (by norm_num) rfl
    (by norm_num [refresherInit]) (by norm_num [refresherInit])
    (by norm_num [refresherInit]) (by norm_num)

set_option maxHeartbeats 1600000 in
/-- C10: every sample that passes the deltaY-nonpositive early return has
strictly positive deltaY, so onMove never returns the diagnostic code 8 of
the zero-delta branch, and whenever progress is assigned deltaY / pullMin
(codes 3 and 4, and code 2 reached from a non-busy state) that progress is
strictly positive for a positive pullMin. -/
theorem onMove_zero_delta_branch_unreachable (m : Refresher) (touchCount : ℕ)
    (deltaY scrollTop : ℚ) (hmin : 0 < m.pullMin) :
    (onMove m touchCount deltaY scrollTop).2 ≠ 8 ∧
    ((onMove m touchCount deltaY scrollTop).2 = 3 ∨
        (onMove m touchCount deltaY scrollTop).2 = 4 →
      (onMove m touchCount deltaY scrollTop).1.progress = deltaY / m.pullMin ∧
      0 < (onMove m touchCount deltaY scrollTop).1.progress) ∧
    ((onMove m touchCount deltaY scrollTop).2 = 2 ∧ isBusy m.state = false →
      (onMove m touchCount deltaY scrollTop).1.progress = deltaY / m.pullMin ∧
      0 < (onMove m touchCount deltaY scrollTop).1.progress) := by
  simp only [onMove]
  split_ifs
  all_goals
    try simp only [setRState_state, setRState_progress, setRState_didStart,
      setRState_appliedStyles, setRState_pullMin, setRState_pullDelta, setRState_events,
      setRState_stateTrace, setProgress_state, setProgress_progress, setProgress_didStart,
      setProgress_appliedStyles, setProgress_pullMin, setProgress_pullDelta,
      setProgress_events, setProgress_stateTrace, emitEvent_state, emitEvent_progress,
      emitEvent_didStart, emitEvent_appliedStyles, emitEvent_pullMin, emitEvent_pullDelta,
      emitEvent_events, emitEvent_stateTrace, setCss_state, setCss_progress, setCss_didStart,
      setCss_pullMin, setCss_pullDelta, setCss_events, setCss_stateTrace, beginRefresh_state,
      beginRefresh_progress, beginRefresh_didStart, beginRefresh_pullMin,
      beginRefresh_pullDelta, beginRefresh_events, beginRefresh_stateTrace] at *
  all_goals
    first
    | (exfalso; linarith)
    | (refine ⟨by simp, ?_, ?_⟩ <;> intro hc <;>
        first
        | (exfalso; simp_all; done)
        | (refine ⟨by trivial, ?_⟩
           have hq : (0 : ℚ) < deltaY / m.pullMin := by
             apply div_pos <;> linarith
           exact hq))

theorem onMove_zero_delta_branch_unreachable_witness :
    (onMove refresherInit 0 30 0).2 ≠ 8 ∧
    ((onMove refresherInit 0 30 0).2 = 3 ∨ (onMove refresherInit 0 30 0).2 = 4 →
      (onMove refresherInit 0 30 0).1.progress = 30 / refresherInit.pullMin ∧
      0 < (onMove refresherInit 0 30 0).1.progress) ∧
    ((onMove refresherInit 0 30 0).2 = 2 ∧ isBusy refresherInit.state = false →
      (onMove refresherInit 0 30 0).1.progress = 30 / refresherInit.pullMin ∧
      0 < (onMove refresherInit 0 30 0).1.progress) :=
  onMove_zero_delta_branch_unreachable refresherInit 0 30 0 (by norm_num [refresherInit])

end Ionic
